import Mathlib

/-!
Shallow embedding of the Safire Appraisal v2.2 valuation engine
(the fuller interactive implementation, `src/unnamed/part_000`).

Numbers are modelled as exact rationals (`ℚ`): the source works with
JavaScript numbers and every operation the engine performs on them
(`+`, `*`, `/`, comparisons, `Math.max`, `Math.floor`) is mirrored here
on `ℚ`.  `Math.PI` is embedded as the exact rational value of the IEEE-754
double the source multiplies with.

A raw text field (unit price, weight, dimensions, quantity, …) is modelled
by the outcome of `parseFloat(String(v ?? ''))` on it: `RawInput.num x`
stands for a string that parses to the finite number `x`, and
`RawInput.nan` for an empty or unparsable string (`parseFloat` yields
`NaN`, or a non-finite value, which `toNumber` rejects the same way).
-/

/-- Outcome of `parseFloat` on a raw text field: a finite number, or NaN. -/
inductive RawInput where
  | num (x : ℚ)
  | nan
deriving DecidableEq, Repr

/-- `const toNumber = (v, d=0) => { const n = parseFloat(String(v ?? ''));
    return Number.isFinite(n) ? n : d }` -/
def toNumber (v : RawInput) (d : ℚ) : ℚ :=
  match v with
  | .num x => x
  | .nan => d

/-- `const DEFAULT_DENSITY = 2.7 // g/cm3` -/
def DEFAULT_DENSITY : ℚ := 2.7

/-- `Math.PI` as the exact value of the IEEE-754 double. -/
def jsPI : ℚ := 884279719003555 / 281474976710656

/-- `const estimateDiamondCarats = (d, h) => Math.max(0, 0.0061 * (d ** 2) * h)` -/
def estimateDiamondCarats (d h : ℚ) : ℚ := max 0 (0.0061 * (d ^ 2) * h)

/-- `const volumeFromBoxMM = (l, w, h) => Math.max(0, (l/10)*(w/10)*(h/10))` -/
def volumeFromBoxMM (l w h : ℚ) : ℚ := max 0 ((l / 10) * (w / 10) * (h / 10))

/-- `const volumeFromCylinderMM = (d, h) => { const r=(d/20);
    return Math.max(0, Math.PI*r*r*(h/10)) }` -/
def volumeFromCylinderMM (d h : ℚ) : ℚ :=
  let r := d / 20
  max 0 (jsPI * r * r * (h / 10))

/-- `const WEIGHT_UNITS = { g: 1, dwt: 1.555, ozt: 31.103 }` — object-key
    lookup, `none` when the unit is not a key of the table. -/
def WEIGHT_UNITS (unit : String) : Option ℚ :=
  if unit = "g" then some 1
  else if unit = "dwt" then some 1.555
  else if unit = "ozt" then some 31.103
  else none

/-- `const toGrams = (val, unit) => toNumber(val) * (WEIGHT_UNITS[unit] || 1)`
    (no table factor is falsy, so `|| 1` is exactly the missing-key default). -/
def toGrams (val : RawInput) (unit : String) : ℚ :=
  toNumber val 0 * ((WEIGHT_UNITS unit).getD 1)

/-- One entry of the material catalog. -/
structure Material where
  key : String
  label : String
  unit : String
  density : ℚ
deriving DecidableEq, Repr

/-- `MATERIALS[0]` — the first catalog entry, used as lookup fallback. -/
def gold_24k : Material := ⟨"gold_24k", "Oro 24k", "€/g", 19.32⟩

/-- The built-in material catalog `MATERIALS`. -/
def MATERIALS : List Material :=
  [ gold_24k,
    ⟨"gold_18k", "Oro 18k", "€/g", 15.6⟩,
    ⟨"gold_14k", "Oro 14k", "€/g", 13.1⟩,
    ⟨"silver_925", "Plata 925", "€/g", 10.36⟩,
    ⟨"platinum_950", "Platino 950", "€/g", 21.45⟩,
    ⟨"palladium", "Paladio", "€/g", 12.0⟩,
    ⟨"titanium", "Titanio", "€/g", 4.5⟩,
    ⟨"steel_316L", "Acero 316L", "€/g", 8.0⟩,
    ⟨"brass", "Latón", "€/g", 8.5⟩,
    ⟨"diamond", "Diamante", "€/ct", 3.52⟩,
    ⟨"ruby", "Rubí", "€/ct", 4.0⟩,
    ⟨"sapphire", "Zafiro", "€/ct", 4.0⟩,
    ⟨"emerald", "Esmeralda", "€/ct", 2.7⟩,
    ⟨"other_metal", "Otro metal", "€/g", 7.8⟩,
    ⟨"other_mineral", "Otro mineral", "€/ct", 2.7⟩ ]

/-- `const unitFor = (mat) => mat?.unit === '€/ct' ? 'ct'
      : (mat?.unit === '€/cm3' ? 'cm3' : 'g')` -/
def unitFor (mat : Material) : String :=
  if mat.unit = "€/ct" then "ct" else if mat.unit = "€/cm3" then "cm3" else "g"

/-- One material line of the current appraisal (`createLine`'s shape). -/
structure Line where
  id : String
  materialKey : String
  unitPrice : RawInput
  density : RawInput
  mode : String
  qty : RawInput
  aliasText : String
  weightVal : RawInput
  weightUnit : String
  shape : String
  lengthMM : RawInput
  widthMM : RawInput
  heightMM : RawInput
  diameterMM : RawInput
  depthMM : RawInput
  volumeCM3 : RawInput
deriving DecidableEq, Repr

/-- `allMaterials.find(x=>x.key===ln.materialKey) || MATERIALS[0]` — the
    lookup-with-fallback the engine applies wherever a line's material is
    resolved. -/
def resolveMaterial (allMaterials : List Material) (key : String) : Material :=
  (allMaterials.find? (fun x => x.key == key)).getD gold_24k

/-- Result record of `calcLine`: `{ m, matUnit, effW, qty, cost }`.
    The multiplier is an integer by construction (`Math.floor` then
    `Math.max(1, ·)`). -/
structure CalcResult where
  m : Material
  matUnit : String
  effW : ℚ
  qty : ℤ
  cost : ℚ
deriving DecidableEq, Repr

/-- `calcLine` of the fuller implementation, translated branch for branch. -/
def calcLine (allMaterials : List Material) (ln : Line) : CalcResult :=
  let m := resolveMaterial allMaterials ln.materialKey
  let matUnit := unitFor m
  let effW : ℚ :=
    if ln.mode = "dimensions" then
      if m.key = "diamond" ∧ ln.shape = "diamond_round" then
        estimateDiamondCarats (toNumber ln.diameterMM 0) (toNumber ln.depthMM 0)
      else
        let vol : ℚ :=
          if ln.shape = "box" then
            volumeFromBoxMM (toNumber ln.lengthMM 0) (toNumber ln.widthMM 0)
              (toNumber ln.heightMM 0)
          else if ln.shape = "cylinder" then
            volumeFromCylinderMM (toNumber ln.diameterMM 0) (toNumber ln.heightMM 0)
          else if ln.shape = "volume" then
            toNumber ln.volumeCM3 0
          else 0
        let dens := toNumber ln.density DEFAULT_DENSITY
        if m.unit = "€/ct" then (vol * dens) / 0.2
        else if m.unit = "€/g" then vol * dens
        else vol
    else
      if m.unit = "€/g" then
        toGrams ln.weightVal (if ln.weightUnit = "" then "g" else ln.weightUnit)
      else
        toNumber ln.weightVal 0
  let qty : ℤ := max 1 ⌊toNumber ln.qty 1⌋
  let cost : ℚ := toNumber ln.unitPrice 0 * effW * (qty : ℚ)
  ⟨m, matUnit, effW, qty, cost⟩

/-- Result of the `totals` memo: `{ subtotal, totalWeightG, parts }`. -/
structure Totals where
  subtotal : ℚ
  totalWeightG : ℚ
  parts : List CalcResult
deriving DecidableEq, Repr

/-- The `totals` memo: subtotal of line costs, and total weight in grams
    accumulated only over lines whose resolved material's display unit is
    `g` (the two `reduce` loops, with `parts[i]` paired to `lines[i]`). -/
def totals (allMaterials : List Material) (lines : List Line) : Totals :=
  let parts := lines.map (calcLine allMaterials)
  let subtotal := parts.foldl (fun a b => a + b.cost) 0
  let totalWeightG :=
    (lines.zip parts).foldl
      (fun a lb =>
        let m := resolveMaterial allMaterials lb.1.materialKey
        if unitFor m = "g" then a + lb.2.effW * (lb.2.qty : ℚ) else a)
      0
  ⟨subtotal, totalWeightG, parts⟩

/-- `pctMaterials = priceP > 0 ? (totals.subtotal / priceP) * 100 : 0` -/
def pctMaterials (subtotal priceP : ℚ) : ℚ :=
  if priceP > 0 then subtotal / priceP * 100 else 0

/-- `pctTotal = priceP > 0 ? (totalCost / priceP) * 100 : 0` -/
def pctTotal (totalCost priceP : ℚ) : ℚ :=
  if priceP > 0 then totalCost / priceP * 100 else 0

/-- `overPctTotal = totalCost > 0 ? ((priceP - totalCost) / totalCost) * 100 : 0` -/
def overPctTotal (priceP totalCost : ℚ) : ℚ :=
  if totalCost > 0 then (priceP - totalCost) / totalCost * 100 else 0

/-- The diagnosis effect as a pure function of `(priceP, totalCost)`:
    `if (!priceP || totalCost <= 0) '' ; if (priceP < totalCost) …` —
    `!priceP` on a finite number is exactly `priceP = 0`. -/
def diagnosisOf (priceP totalCost : ℚ) : String :=
  if priceP = 0 ∨ totalCost ≤ 0 then ""
  else if priceP < totalCost then "Precio sospechoso"
  else if overPctTotal priceP totalCost > 40 then "Sobrevalorado"
  else if overPctTotal priceP totalCost > 20 then "Posible sobrevaloración"
  else "Precio razonable"

/-- `const next = [entry, ...history].slice(0,500)` — the list the save
    handler stores and sets. -/
def saveHistory {α : Type} (entry : α) (history : List α) : List α :=
  ((entry :: history).take 500)

/-!
### Alias resolver

`EQUIVALENCE_RULES` is an ordered table of case-insensitive regular
expressions.  The five patterns use only literals, alternation, optional
groups, `\s?`/`\s*`, the anchors `^` and `\b`, and unanchored `.test`.
They are embedded with a small total matcher for exactly those constructs.
-/

/-- Regular-expression fragment sufficient for the five alias patterns. -/
inductive Rx where
  | eps : Rx
  | cls : (Char → Bool) → Rx
  | seq : Rx → Rx → Rx
  | alt : Rx → Rx → Rx
  | opt : Rx → Rx
  | starCls : (Char → Bool) → Rx
  | bos : Rx
  | wordB : Rx

/-- JavaScript `\w` (for `\b` boundaries): `[A-Za-z0-9_]`. -/
def isWordChar (c : Char) : Bool := c.isAlphanum || c = '_'

/-- JavaScript `\s` restricted to the ASCII whitespace the inputs can hold. -/
def isSpaceChar (c : Char) : Bool :=
  c = ' ' || c = '\t' || c = '\n' || c = '\r' || c.val = 11 || c.val = 12

/-- All states reachable by consuming zero or more class characters:
    each state is (last consumed char, remaining input). -/
def starSplits (p : Char → Bool) : Option Char → List Char → List (Option Char × List Char)
  | prev, [] => [(prev, [])]
  | prev, c :: rest =>
    (prev, c :: rest) :: (if p c then starSplits p (some c) rest else [])

/-- All states reachable after matching `rx` from the given position. -/
def runRx : Rx → Option Char → List Char → List (Option Char × List Char)
  | .eps, prev, s => [(prev, s)]
  | .cls p, _, s =>
    match s with
    | [] => []
    | c :: rest => if p c then [(some c, rest)] else []
  | .seq a b, prev, s => (runRx a prev s).flatMap (fun st => runRx b st.1 st.2)
  | .alt a b, prev, s => runRx a prev s ++ runRx b prev s
  | .opt a, prev, s => (prev, s) :: runRx a prev s
  | .starCls p, prev, s => starSplits p prev s
  | .bos, prev, s => if prev.isNone then [(prev, s)] else []
  | .wordB, prev, s =>
    let pw := match prev with | some c => isWordChar c | none => false
    let nw := match s with | c :: _ => isWordChar c | [] => false
    if pw ≠ nw then [(prev, s)] else []

/-- Does `rx` match starting exactly at this position? -/
def rxMatchesAt (rx : Rx) (prev : Option Char) (s : List Char) : Bool :=
  !(runRx rx prev s).isEmpty

/-- Unanchored search from every position (JavaScript `RegExp.test`). -/
def rxSearch (rx : Rx) : Option Char → List Char → Bool
  | prev, [] => rxMatchesAt rx prev []
  | prev, c :: rest => rxMatchesAt rx prev (c :: rest) || rxSearch rx (some c) rest

/-- `rule.test.test(s)` with the `i` flag: lower-case the input and match
    the (lower-case) pattern anywhere. -/
def rxTest (rx : Rx) (s : List Char) : Bool :=
  rxSearch rx none (s.map Char.toLower)

/-- Literal string pattern. -/
def rstr (s : String) : Rx :=
  s.data.foldr (fun c acc => Rx.seq (Rx.cls (fun x => x == c)) acc) Rx.eps

/-- `(^|\b) X \b` — the common wrapper of all five rules. -/
def anchored (x : Rx) : Rx :=
  Rx.seq (Rx.alt Rx.bos Rx.wordB) (Rx.seq x Rx.wordB)

/-- `\s?` -/
def optSpace : Rx := Rx.opt (Rx.cls isSpaceChar)

/-- `\s*` -/
def starSpace : Rx := Rx.starCls isSpaceChar

/-- `NNN(\/1000)?` -/
def fineness (n : String) : Rx := Rx.seq (rstr n) (Rx.opt (rstr "/1000"))

/-- `NN\s?k(arat)?` -/
def karat (n : String) : Rx :=
  Rx.seq (rstr n) (Rx.seq optSpace (Rx.seq (rstr "k") (Rx.opt (rstr "arat"))))

/-- `oro\s*NNk` -/
def oroK (nk : String) : Rx := Rx.seq (rstr "oro") (Rx.seq starSpace (rstr nk))

/-- One entry of `EQUIVALENCE_RULES`. -/
structure EquivRule where
  test : Rx
  key : String

/-- `const EQUIVALENCE_RULES = [...]` — the five (pattern, key) rules in
    declaration order, patterns written lower-case (the `i` flag is applied
    by `rxTest`). -/
def EQUIVALENCE_RULES : List EquivRule :=
  [ ⟨anchored (Rx.alt (Rx.alt (fineness "750") (karat "18")) (oroK "18k")), "gold_18k"⟩,
    ⟨anchored (Rx.alt (Rx.alt (fineness "585") (karat "14")) (oroK "14k")), "gold_14k"⟩,
    ⟨anchored (Rx.alt (Rx.alt (fineness "999") (karat "24")) (oroK "24k")), "gold_24k"⟩,
    ⟨anchored (Rx.alt (Rx.alt (fineness "925")
        (Rx.seq (rstr "plata") (Rx.seq starSpace (Rx.seq (rstr "de")
          (Rx.seq starSpace (rstr "ley")))))) (rstr "sterling")), "silver_925"⟩,
    ⟨anchored (Rx.alt (Rx.alt
        (Rx.seq (fineness "950") (Rx.seq starSpace (rstr "pt")))
        (Rx.seq (rstr "platino") (Rx.seq starSpace (rstr "950"))))
        (Rx.seq (rstr "pt") (Rx.seq starSpace (rstr "950")))), "platinum_950"⟩ ]

/-- The rule loop: `for (const rule of EQUIVALENCE_RULES)
    if (rule.test.test(s)) return rule.key; return null`. -/
def firstRuleKey : List EquivRule → List Char → Option String
  | [], _ => none
  | r :: rs, s => if rxTest r.test s then some r.key else firstRuleKey rs s

/-- `String.prototype.trim`: strip whitespace from both ends. -/
def jsTrim (s : List Char) : List Char :=
  ((s.dropWhile isSpaceChar).reverse.dropWhile isSpaceChar).reverse

/-- `detectMaterialFromAlias`: trim, `null` on empty, else first matching
    rule's key in declaration order, else `null`. -/
def detectMaterialFromAlias (txt : String) : Option String :=
  let s := jsTrim txt.data
  if s.isEmpty then none
  else firstRuleKey EQUIVALENCE_RULES s

/-!
### Spec-side definitions (used only to compare against the embedding)
-/

/-- Modelled from the claim's wording: threshold rules applied in order to a
    quoted price `P > 0` and total cost `C > 0`. -/
def diagnosisSpecRules (P C : ℚ) : String :=
  if P < C then "Precio sospechoso"
  else if (P - C) / C * 100 > 40 then "Sobrevalorado"
  else if (P - C) / C * 100 > 20 then "Posible sobrevaloración"
  else "Precio razonable"

/-!
### Claims
-/

/-- **C1** (amended): for `P > 0` and `C > 0` the diagnosis follows the
    threshold rules in order with strict `>` comparisons, and it is the
    empty string whenever `P = 0` or `C ≤ 0`.  (The original claim's guard
    "whenever `P` is not `> 0`" is too wide: a negative quoted price with a
    positive cost is diagnosed "Precio sospechoso", see the
    counterexample.) -/
theorem C1_diagnosis_thresholds (P C : ℚ) :
    (P = 0 ∨ C ≤ 0 → diagnosisOf P C = "") ∧
    (0 < P → 0 < C → diagnosisOf P C = diagnosisSpecRules P C) := by
  constructor
  · intro h
    simp only [diagnosisOf, if_pos h]
  · intro hP hC
    have hguard : ¬ (P = 0 ∨ C ≤ 0) := by
      push_neg
      exact ⟨ne_of_gt hP, hC⟩
    simp only [diagnosisOf, diagnosisSpecRules, if_neg hguard, overPctTotal, if_pos hC]

/-- **C1** counterexample to the claim as stated: `P = -100` is not `> 0`
    and `C = 500 > 0`, yet the diagnosis is `"Precio sospechoso"`, not the
    empty/unset value. -/
theorem C1_counterexample :
    ¬ ((-100 : ℚ) > 0) ∧ diagnosisOf (-100) 500 = "Precio sospechoso" := by
  constructor
  · decide
  · simp only [diagnosisOf]
    norm_num

/-- **C1** witness: the amended theorem applied at the boundary rows of the
    claim's diagnosis table. -/
theorem C1_witness :
    diagnosisOf 0 1000 = "" ∧
    diagnosisOf 1100 1000 = diagnosisSpecRules 1100 1000 ∧
    diagnosisOf 1300 1000 = diagnosisSpecRules 1300 1000 ∧
    diagnosisOf 2000 1000 = diagnosisSpecRules 2000 1000 ∧
    diagnosisOf 900 1000 = diagnosisSpecRules 900 1000 :=
  ⟨(C1_diagnosis_thresholds 0 1000).1 (Or.inl rfl),
   (C1_diagnosis_thresholds 1100 1000).2 (by norm_num) (by norm_num),
   (C1_diagnosis_thresholds 1300 1000).2 (by norm_num) (by norm_num),
   (C1_diagnosis_thresholds 2000 1000).2 (by norm_num) (by norm_num),
   (C1_diagnosis_thresholds 900 1000).2 (by norm_num) (by norm_num)⟩

/-- **C10**: the percentage computations are guarded total functions: a
    quoted price not `> 0` forces `pctMaterials` and `pctTotal` to `0`, and
    a total cost not `> 0` forces `overPctTotal` to `0`; every input
    produces a defined rational value. -/
theorem C10_pct_guards (subtotal totalCost priceP C : ℚ) :
    (¬ priceP > 0 → pctMaterials subtotal priceP = 0 ∧ pctTotal totalCost priceP = 0) ∧
    (¬ C > 0 → overPctTotal priceP C = 0) := by
  refine ⟨fun h => ⟨?_, ?_⟩, fun h => ?_⟩
  · simp only [pctMaterials, if_neg h]
  · simp only [pctTotal, if_neg h]
  · simp only [overPctTotal, if_neg h]

/-- **C10** witness: the guarded percentages at `priceP = 0`, `C = 0`. -/
theorem C10_witness :
    (pctMaterials 1000 0 = 0 ∧ pctTotal 1090 0 = 0) ∧ overPctTotal 1400 0 = 0 :=
  ⟨((C10_pct_guards 1000 1090 0 0).1 (by norm_num)),
   ((C10_pct_guards 1000 1090 1400 0).2 (by norm_num))⟩

/-- **C5**: for every line (and any material list), the multiplier equals
    `max 1 ⌊toNumber ln.qty 1⌋` — an integer that is always `≥ 1`,
    whatever the raw quantity input (non-numeric, `0`, negative or
    fractional); in particular a raw `"0.5"` gives multiplier `1`. -/
theorem C5_multiplier (allMaterials : List Material) (ln : Line) :
    (calcLine allMaterials ln).qty = max 1 ⌊toNumber ln.qty 1⌋ ∧
    1 ≤ (calcLine allMaterials ln).qty ∧
    (calcLine allMaterials { ln with qty := RawInput.num 0.5 }).qty = 1 := by
  refine ⟨rfl, le_max_left _ _, ?_⟩
  show max 1 ⌊toNumber (RawInput.num 0.5) 1⌋ = 1
  norm_num [toNumber]

/-- **C3** (amended): `lineCost = toNumber(unitPrice, 0) · effW · qty` for
    every line; the coercion defaults an unparsable unit price to `0` and
    keeps a parseable value unchanged — including negative ones, which are
    **not** clamped to `0` (see the counterexample to the claim's first
    half). -/
theorem C3_line_cost (allMaterials : List Material) (ln : Line) :
    (calcLine allMaterials ln).cost =
      toNumber ln.unitPrice 0 * (calcLine allMaterials ln).effW *
        ((calcLine allMaterials ln).qty : ℚ) ∧
    toNumber RawInput.nan 0 = 0 ∧ ∀ x : ℚ, toNumber (RawInput.num x) 0 = x :=
  ⟨rfl, rfl, fun _ => rfl⟩

/-- A concrete line used by several counterexamples: 18k gold, weight mode,
    all other raw fields empty. -/
def goldWeightLine : Line :=
  ⟨"l1", "gold_18k", RawInput.nan, RawInput.num 15.6, "weight", RawInput.num 1, "",
    RawInput.nan, "g", "box", RawInput.nan, RawInput.nan, RawInput.nan,
    RawInput.nan, RawInput.nan, RawInput.nan⟩

/-- **C3** counterexample: a parseable negative unit price (`"-5"`) is not
    coerced to `0` — with 2 g of material the line cost is `-10`, whereas
    coercion of the negative price to `0` would give cost `0`. -/
theorem C3_counterexample :
    (calcLine MATERIALS
        { goldWeightLine with
            unitPrice := RawInput.num (-5), weightVal := RawInput.num 2 }).cost = -10 ∧
    (-10 : ℚ) ≠ 0 := by
  constructor
  · simp [calcLine, goldWeightLine, resolveMaterial, MATERIALS, gold_24k, unitFor,
      toGrams, WEIGHT_UNITS, toNumber, List.find?]
    norm_num
  · norm_num

/-- **C2** (amended): the clamped geometry paths are nonnegative — for a
    line in dimensions mode whose shape is not `volume` (box, cylinder,
    diamond-round, or anything unrecognised) and whose coerced density is
    `≥ 0`, the effective quantity is `≥ 0`, and the line cost is `≥ 0`
    whenever the coerced unit price is `≥ 0`.  (The original claim's "for
    every line, whatever its mode, shape, and raw string inputs" fails: the
    weight path and the `volume` shape take the raw parsed value without a
    clamp, so a negative entry gives a negative effective quantity — see
    the counterexample.) -/
theorem C2_nonneg_geometry (allMaterials : List Material) (ln : Line)
    (hmode : ln.mode = "dimensions") (hshape : ln.shape ≠ "volume")
    (hdens : 0 ≤ toNumber ln.density DEFAULT_DENSITY) :
    0 ≤ (calcLine allMaterials ln).effW ∧
    (0 ≤ toNumber ln.unitPrice 0 → 0 ≤ (calcLine allMaterials ln).cost) := by
  have hq : (0 : ℚ) ≤ ((max 1 ⌊toNumber ln.qty 1⌋ : ℤ) : ℚ) := by
    have h1 : (0 : ℤ) ≤ max 1 ⌊toNumber ln.qty 1⌋ :=
      le_trans zero_le_one (le_max_left _ _)
    exact_mod_cast h1
  have heff : 0 ≤ (calcLine allMaterials ln).effW := by
    simp only [calcLine, hmode, reduceIte]
    split_ifs <;>
      first
        | exact le_rfl
        | exact absurd (by assumption) hshape
        | exact le_max_left _ _
        | exact mul_nonneg (le_max_left _ _) hdens
        | exact mul_nonneg le_rfl hdens
        | exact div_nonneg (mul_nonneg (le_max_left _ _) hdens) (by norm_num)
        | exact div_nonneg (mul_nonneg le_rfl hdens) (by norm_num)
  refine ⟨heff, fun hp => ?_⟩
  show 0 ≤ toNumber ln.unitPrice 0 * (calcLine allMaterials ln).effW * _
  exact mul_nonneg (mul_nonneg hp heff) hq

/-- **C2** counterexample to the claim as stated: in weight mode a raw
    weight of `"-5"` (with unit price `≥ 0`) gives effective quantity
    `-5 < 0`. -/
theorem C2_counterexample :
    (calcLine MATERIALS { goldWeightLine with weightVal := RawInput.num (-5) }).effW = -5 ∧
    ¬ (0 : ℚ) ≤ -5 := by
  constructor
  · simp [calcLine, goldWeightLine, resolveMaterial, MATERIALS, gold_24k, unitFor,
      toGrams, WEIGHT_UNITS, toNumber, List.find?]
  · norm_num

/-- A concrete dimensions-mode line: 18k gold box, 10×10×10 mm, density
    and unit price parseable and positive. -/
def goldBoxLine : Line :=
  ⟨"l2", "gold_18k", RawInput.num 60, RawInput.num 15.6, "dimensions", RawInput.num 1, "",
    RawInput.nan, "g", "box", RawInput.num 10, RawInput.num 10, RawInput.num 10,
    RawInput.nan, RawInput.nan, RawInput.nan⟩

/-- **C2** witness: the amended theorem applied to a concrete box line. -/
theorem C2_witness :
    0 ≤ (calcLine MATERIALS goldBoxLine).effW ∧ 0 ≤ (calcLine MATERIALS goldBoxLine).cost := by
  have h := C2_nonneg_geometry MATERIALS goldBoxLine rfl (by decide)
    (by norm_num [goldBoxLine, toNumber, DEFAULT_DENSITY])
  exact ⟨h.1, h.2 (by norm_num [goldBoxLine, toNumber])⟩

/-- **C4**: in dimensions mode the effective quantity follows the source's
    formulas: the diamond material with shape `diamond_round` uses
    `estimateDiamondCarats` on diameter/depth; shapes `box`, `cylinder` and
    `volume` produce a cm³ volume (geometry estimator, or the raw
    `volumeCM3` field) converted with the line's density (default `2.7`
    when non-numeric): `(vol·dens)/0.2` for `€/ct` pricing, `vol·dens` for
    `€/g`, and the unconverted volume otherwise. -/
theorem C4_dimensions_formulas (allMaterials : List Material) (ln : Line)
    (hmode : ln.mode = "dimensions") :
    let m := resolveMaterial allMaterials ln.materialKey
    let dens := toNumber ln.density DEFAULT_DENSITY
    let conv : ℚ → ℚ := fun vol =>
      if m.unit = "€/ct" then vol * dens / 0.2
      else if m.unit = "€/g" then vol * dens
      else vol
    (m.key = "diamond" → ln.shape = "diamond_round" →
      (calcLine allMaterials ln).effW =
        estimateDiamondCarats (toNumber ln.diameterMM 0) (toNumber ln.depthMM 0)) ∧
    (ln.shape = "box" →
      (calcLine allMaterials ln).effW =
        conv (volumeFromBoxMM (toNumber ln.lengthMM 0) (toNumber ln.widthMM 0)
          (toNumber ln.heightMM 0))) ∧
    (ln.shape = "cylinder" →
      (calcLine allMaterials ln).effW =
        conv (volumeFromCylinderMM (toNumber ln.diameterMM 0) (toNumber ln.heightMM 0))) ∧
    (ln.shape = "volume" →
      (calcLine allMaterials ln).effW = conv (toNumber ln.volumeCM3 0)) ∧
    toNumber RawInput.nan DEFAULT_DENSITY = 2.7 := by
  intro m dens conv
  refine ⟨?_, ?_, ?_, ?_, rfl⟩
  · intro hk hs
    simp only [calcLine, hmode, reduceIte]
    rw [if_pos ⟨hk, hs⟩]
  · intro hs
    simp only [calcLine, hmode, reduceIte, hs]
    rw [if_neg (by simp)]
  · intro hs
    simp only [calcLine, hmode, reduceIte, hs]
    rw [if_neg (by simp)]
    exact rfl
  · intro hs
    simp only [calcLine, hmode, reduceIte, hs]
    rw [if_neg (by simp)]
    exact rfl

/-- The `diamante_redondo` preset: diamond material, round shape,
    6.5 mm diameter, 4 mm depth. -/
def diamondRoundLine : Line :=
  ⟨"l3", "diamond", RawInput.num 100, RawInput.num 3.52, "dimensions", RawInput.num 1, "",
    RawInput.nan, "ct", "diamond_round", RawInput.nan, RawInput.nan, RawInput.nan,
    RawInput.num 6.5, RawInput.num 4, RawInput.nan⟩

/-- **C4** witness: the diamond branch applied to the round-diamond preset
    line. -/
theorem C4_witness :
    (calcLine MATERIALS diamondRoundLine).effW =
      estimateDiamondCarats (toNumber diamondRoundLine.diameterMM 0)
        (toNumber diamondRoundLine.depthMM 0) :=
  (C4_dimensions_formulas MATERIALS diamondRoundLine rfl).1 (by decide) rfl

/-- **C6**: `toGrams` multiplies the parsed value by the fixed factor —
    `1` for `"g"`, `1.555` for `"dwt"`, `31.103` for `"ozt"` — any unit
    outside the table uses factor `1`, a non-numeric/empty value counts as
    `0`, and the pinned outputs hold: `toGrams 1 "ozt" = 31.103` and
    `toGrams 10 "dwt" = 15.55` (within `1e-2`). -/
theorem C6_weight_to_grams :
    (∀ v, toGrams v "g" = toNumber v 0 * 1 ∧
          toGrams v "dwt" = toNumber v 0 * 1.555 ∧
          toGrams v "ozt" = toNumber v 0 * 31.103) ∧
    (∀ v unit, unit ≠ "g" → unit ≠ "dwt" → unit ≠ "ozt" →
      toGrams v unit = toNumber v 0 * 1) ∧
    (∀ unit, toGrams RawInput.nan unit = 0) ∧
    toGrams (RawInput.num 1) "ozt" = 31.103 ∧
    |toGrams (RawInput.num 10) "dwt" - 15.55| ≤ 1e-2 := by
  refine ⟨fun v => ⟨rfl, rfl, rfl⟩, fun v unit h1 h2 h3 => ?_, fun unit => ?_, ?_, ?_⟩
  · simp only [toGrams, WEIGHT_UNITS, if_neg h1, if_neg h2, if_neg h3, Option.getD_none]
  · simp [toGrams, toNumber]
  · simp [toGrams, WEIGHT_UNITS, toNumber]
  · simp [toGrams, WEIGHT_UNITS, toNumber]
    norm_num [abs_le]

/-- **C6** witness: the out-of-table branch applied at unit `"ct"`. -/
theorem C6_witness :
    toGrams (RawInput.num 2) "ct" = toNumber (RawInput.num 2) 0 * 1 :=
  C6_weight_to_grams.2.1 (RawInput.num 2) "ct" (by decide) (by decide) (by decide)

/-- The for-loop over the rule table returns the first match's key. -/
theorem firstRuleKey_eq_find (rs : List EquivRule) (s : List Char) :
    firstRuleKey rs s = (rs.find? (fun r => rxTest r.test s)).map EquivRule.key := by
  induction rs with
  | nil => rfl
  | cons r rs ih =>
    by_cases h : rxTest r.test s
    · simp [firstRuleKey, List.find?_cons, h]
    · simp [firstRuleKey, List.find?_cons, h, ih]

/-- **C7**: the alias resolver trims its input and returns `none` when the
    trimmed string is empty; otherwise it returns the key of the first rule
    of `EQUIVALENCE_RULES`, in declaration order, whose case-insensitive
    pattern matches, and `none` when no rule matches; in particular
    `"750/1000"` resolves to the 18k-gold key, `"925"` to the silver-925
    key, and unmatched text to `none`. -/
theorem C7_alias_resolution :
    (∀ txt : String, jsTrim txt.data = [] → detectMaterialFromAlias txt = none) ∧
    (∀ txt : String, jsTrim txt.data ≠ [] →
      detectMaterialFromAlias txt =
        (EQUIVALENCE_RULES.find? (fun r => rxTest r.test (jsTrim txt.data))).map
          EquivRule.key) ∧
    detectMaterialFromAlias "750/1000" = some "gold_18k" ∧
    detectMaterialFromAlias "925" = some "silver_925" ∧
    detectMaterialFromAlias "hello" = none := by
  refine ⟨fun txt h => ?_, fun txt h => ?_, by decide, by decide, by decide⟩
  · simp [detectMaterialFromAlias, h]
  · simp [detectMaterialFromAlias, h, firstRuleKey_eq_find]

/-- **C7** witness: the resolver applied to a whitespace-only string and to
    `"750/1000"`. -/
theorem C7_witness :
    detectMaterialFromAlias "  " = none ∧
    detectMaterialFromAlias "750/1000" =
      (EQUIVALENCE_RULES.find? (fun r => rxTest r.test (jsTrim "750/1000".data))).map
        EquivRule.key :=
  ⟨C7_alias_resolution.1 "  " (by decide), C7_alias_resolution.2.1 "750/1000" (by decide)⟩

/-- **C8**: starting from any history of length `≤ 500`, every sequence of
    saves keeps the length `≤ 500`; each save puts the new entry at the
    front; and at the cap the evicted element is exactly the last (oldest)
    entry. -/
theorem C8_history_cap {α : Type} :
    (∀ (es : List α) (h : List α), h.length ≤ 500 →
      (es.foldl (fun acc e => saveHistory e acc) h).length ≤ 500) ∧
    (∀ (e : α) (h : List α), (saveHistory e h).length ≤ 500 ∧
      (saveHistory e h).head? = some e) ∧
    (∀ (e : α) (h : List α), h.length = 500 → saveHistory e h = e :: h.dropLast) := by
  have hstep : ∀ (e : α) (h : List α), (saveHistory e h).length ≤ 500 := by
    intro e h
    simp [saveHistory]
  have hcons : ∀ (e : α) (h : List α), saveHistory e h = e :: h.take 499 := by
    intro e h
    rw [saveHistory, show (500 : ℕ) = 499 + 1 from rfl, List.take_succ_cons]
  refine ⟨?_, fun e h => ⟨hstep e h, ?_⟩, fun e h hh => ?_⟩
  · intro es
    induction es with
    | nil => intro h hh; simpa using hh
    | cons e es ih =>
      intro h hh
      simp only [List.foldl_cons]
      exact ih _ (hstep e h)
  · rw [hcons]; rfl
  · rw [hcons, List.dropLast_eq_take, hh]

/-- **C8** witness: a save onto a full 500-entry history puts the entry in
    front and drops the oldest; a short save sequence stays within the
    cap. -/
theorem C8_witness :
    (saveHistory 7 (List.replicate 500 0)).head? = some 7 ∧
    saveHistory 7 (List.replicate 500 0) = 7 :: (List.replicate 500 0).dropLast ∧
    ((List.replicate 3 9).foldl (fun acc e => saveHistory e acc) []).length ≤ 500 :=
  ⟨(C8_history_cap.2.1 7 (List.replicate 500 0)).2,
   C8_history_cap.2.2 7 (List.replicate 500 0) (by rw [List.length_replicate]),
   C8_history_cap.1 (List.replicate 3 9) [] (by simp)⟩

/-- The material lookup either returns a catalog member or the fallback
    `MATERIALS[0]`. -/
theorem resolveMaterial_mem_or_fallback (mats : List Material) (key : String) :
    resolveMaterial mats key ∈ mats ∨ resolveMaterial mats key = gold_24k := by
  unfold resolveMaterial
  cases hfind : mats.find? (fun x => x.key == key) with
  | none => right; rfl
  | some m => left; simpa using List.mem_of_find?_eq_some hfind

/-- The weight accumulator of `totals`, unrolled: the fold over the
    line/part pairs adds `effW · qty` exactly for the lines whose resolved
    material displays in grams. -/
theorem weightFold (mats : List Material) (ls : List Line) (a : ℚ) :
    (ls.zip (ls.map (calcLine mats))).foldl
      (fun acc lb =>
        if unitFor (resolveMaterial mats lb.1.materialKey) = "g" then
          acc + lb.2.effW * (lb.2.qty : ℚ) else acc) a
    = a + ((ls.filter
        (fun ln => unitFor (resolveMaterial mats ln.materialKey) == "g")).map
        (fun ln => (calcLine mats ln).effW * ((calcLine mats ln).qty : ℚ))).sum := by
  induction ls generalizing a with
  | nil => simp
  | cons l ls ih =>
    simp only [List.map_cons, List.zip_cons_cons, List.foldl_cons]
    by_cases h : unitFor (resolveMaterial mats l.materialKey) = "g"
    · rw [if_pos h, List.filter_cons_of_pos (by simpa using h), List.map_cons,
        List.sum_cons, ih]
      ring
    · rw [if_neg h, List.filter_cons_of_neg (by simpa using h), ih]

/-- **C9**: when every material in the catalog prices per gram, per carat
    or per volume, `totalWeightG` is exactly the sum of
    `effectiveQuantity · multiplier` over the lines whose resolved material
    is priced per gram — per-carat and per-volume lines contribute
    nothing. -/
theorem C9_total_weight (mats : List Material) (lines : List Line)
    (hu : ∀ m ∈ mats, m.unit = "€/g" ∨ m.unit = "€/ct" ∨ m.unit = "€/cm3") :
    (totals mats lines).totalWeightG =
      ((lines.filter
        (fun ln => (resolveMaterial mats ln.materialKey).unit == "€/g")).map
        (fun ln => (calcLine mats ln).effW * ((calcLine mats ln).qty : ℚ))).sum := by
  have hiff : ∀ key, (unitFor (resolveMaterial mats key) = "g") ↔
      (resolveMaterial mats key).unit = "€/g" := by
    intro key
    have htri : (resolveMaterial mats key).unit = "€/g" ∨
        (resolveMaterial mats key).unit = "€/ct" ∨
        (resolveMaterial mats key).unit = "€/cm3" := by
      rcases resolveMaterial_mem_or_fallback mats key with h | h
      · exact hu _ h
      · rw [h]; left; rfl
    unfold unitFor
    rcases htri with h | h | h <;> simp [h]
  have hpred : (fun ln : Line => unitFor (resolveMaterial mats ln.materialKey) == "g") =
      (fun ln : Line => (resolveMaterial mats ln.materialKey).unit == "€/g") := by
    funext ln
    by_cases h : unitFor (resolveMaterial mats ln.materialKey) = "g"
    · have h2 := (hiff ln.materialKey).1 h
      simp [h, h2]
    · have h2 : ¬ (resolveMaterial mats ln.materialKey).unit = "€/g" :=
        fun hh => h ((hiff ln.materialKey).2 hh)
      simp [h, h2]
  show (lines.zip (lines.map (calcLine mats))).foldl _ 0 = _
  rw [weightFold, hpred, zero_add]

/-- **C9** witness: the equation applied to the built-in catalog and a
    two-line appraisal (one per-gram line, one per-carat line). -/
theorem C9_witness :
    (totals MATERIALS [goldWeightLine, diamondRoundLine]).totalWeightG =
      (([goldWeightLine, diamondRoundLine].filter
        (fun ln => (resolveMaterial MATERIALS ln.materialKey).unit == "€/g")).map
        (fun ln => (calcLine MATERIALS ln).effW *
          ((calcLine MATERIALS ln).qty : ℚ))).sum :=
  C9_total_weight MATERIALS [goldWeightLine, diamondRoundLine] (by decide)
